import Mathlib

/-
Verification of the excel-streamlit-app report generator (src/app.py).

The embedding models the two report builders:
  run_code_1 (the Balance Aggregator, "Сальдо") and
  run_code_2 (the Contract Aggregator, "Контракты"),
together with the sheet-name classifier helpers
  safe_sheet_name, split_prefix_suffix4, split_prefix_suffix2, normalize_prefix.

Modelling conventions:
  - Python strings are lists of characters (Str).
  - Spreadsheet cell values are Cell: an empty cell (None / NaN when read by
    pandas), a numeric cell, or a textual cell.  Numbers are exact rationals:
    the source works with Python floats, whose arithmetic the rational model
    idealises.
  - pd.to_numeric(errors = coerce) and float(v) are both modelled by pyFloat:
    a cell whose content is numeric is a Cell.num, so Cell.str covers exactly
    the values those coercions reject.
  - A workbook is an ordered association list of sheet name and sheet grid;
    a sheet is its list of rows, a row a list of cells.  Cells that the source
    never wrote are Cell.empty.
-/

namespace ExcelApp

abbrev Str := List Char

def strOf (s : String) : Str := s.data

/-- Python str.lower restricted to the alphabets the program manipulates:
ASCII letters and the Cyrillic block (А..Я and Ё), which covers every string
constant compared case-insensitively in src/app.py. -/
def pyLowerChar (c : Char) : Char :=
  if 0x41 ≤ c.toNat ∧ c.toNat ≤ 0x5A then Char.ofNat (c.toNat + 0x20)
  else if 0x410 ≤ c.toNat ∧ c.toNat ≤ 0x42F then Char.ofNat (c.toNat + 0x20)
  else if c.toNat = 0x401 then Char.ofNat 0x451
  else c

def pyLower (s : Str) : Str := s.map pyLowerChar

def pyStripLeft (s : Str) : Str := s.dropWhile Char.isWhitespace

def pyStripRight (s : Str) : Str := (s.reverse.dropWhile Char.isWhitespace).reverse

/-- Python str.strip (both ends). -/
def pyStrip (s : Str) : Str := pyStripRight (pyStripLeft s)

/-- Python string comparison: lexicographic by code point. -/
def lexLt : Str → Str → Bool
  | [], [] => false
  | [], _ :: _ => true
  | _ :: _, [] => false
  | a :: as, b :: bs => if a < b then true else if b < a then false else lexLt as bs

def insertSorted {α : Type} (r : α → α → Bool) (a : α) : List α → List α
  | [] => [a]
  | b :: bs => if r a b then a :: b :: bs else b :: insertSorted r a bs

/-- Deterministic comparison sort (insertion sort); stands in for the sorts of
pandas sort_values and Python sorted. -/
def sortBy {α : Type} (r : α → α → Bool) (l : List α) : List α :=
  l.foldr (insertSorted r) []

def dedupAux {α : Type} [DecidableEq α] (seen : List α) : List α → List α
  | [] => []
  | a :: rest => if a ∈ seen then dedupAux seen rest else a :: dedupAux (seen ++ [a]) rest

/-- Distinct elements, first occurrence kept; models building a Python set. -/
def dedup {α : Type} [DecidableEq α] (l : List α) : List α := dedupAux [] l

/-- Association-list lookup (Python dict access keyed by insertion order). -/
def alookup {κ α : Type} [DecidableEq κ] : List (κ × α) → κ → Option α
  | [], _ => none
  | (k, v) :: rest, k' => if k = k' then some v else alookup rest k'

/-- A spreadsheet cell as read by openpyxl or pandas. -/
inductive Cell where
  | empty : Cell
  | num : ℚ → Cell
  | str : Str → Cell
deriving DecidableEq

abbrev Sheet := List (List Cell)
abbrev Workbook := List (Str × Sheet)

def sheetNames (wb : Workbook) : List Str := wb.map Prod.fst

/-- Sheet access by name; a missing name yields an empty sheet (unreachable
for the classified names the aggregators actually read). -/
def getSheet (wb : Workbook) (n : Str) : Sheet := (alookup wb n).getD []

/-- Width of the rectangular table pandas parses from a sheet (df.shape 1). -/
def ncols (s : Sheet) : Nat := s.foldr (fun r acc => max r.length acc) 0

def cellAt (r : List Cell) (i : Nat) : Cell := r.getD i Cell.empty

/-- Python str() applied to a cell value in a pandas column: an empty cell is
NaN and prints as nan; an integral float prints with a trailing .0.  The
precise text of a non-integral number is irrelevant to every comparison the
source performs (equality with fixed words and a fixed-word prefix test). -/
def pyStr : Cell → Str
  | Cell.empty => strOf ("nan")
  | Cell.num q => if q.den = 1 then strOf (toString q.num) ++ strOf (".0") else strOf (toString q)
  | Cell.str s => s

/-- pd.to_numeric(errors = coerce) and float(v): numeric cells convert, all
other values fail (pandas NaN, Python ValueError). -/
def pyFloat : Cell → Option ℚ
  | Cell.num q => some q
  | _ => none

/-- Python truthiness of a cell value (None, 0.0 and the empty string are
falsy). -/
def falsy : Cell → Bool
  | Cell.empty => true
  | Cell.num q => q = 0
  | Cell.str s => s = []

-- =========================
-- Helpers of src/app.py
-- =========================

def bannedChars : List Char := [':', '\\', '/', '?', '*', '[', ']']

def listStr : Str := strOf ("лист")

/-- safe_sheet_name: drop characters Excel forbids in sheet names, strip,
default to лист when empty, truncate to 31 characters. -/
def safe_sheet_name (n : Str) : Str :=
  let f := n.filter (fun c => !(bannedChars.contains c))
  let t := pyStrip f
  (if t = [] then listStr else t).take 31

/-- split_prefix_suffix4: all but the last 4 characters, and the last 4
characters lowercased. -/
def split_prefix_suffix4 (s : Str) : Str × Str :=
  if s.length < 4 then (s, [])
  else (s.take (s.length - 4), pyLower (s.drop (s.length - 4)))

/-- split_prefix_suffix2: all but the last 2 characters, and the last 2
characters lowercased. -/
def split_prefix_suffix2 (s : Str) : Str × Str :=
  if s.length < 2 then (s, [])
  else (s.take (s.length - 2), pyLower (s.drop (s.length - 2)))

def normalize_prefix (p : Str) : Str := pyStrip p

-- =========================
-- CODE 1 (Saldo) : the Balance Aggregator
-- =========================

/-- The four recognized 4-character codes and the 0-based column index each
one is read from (src/app.py line 53). -/
def target_suffixes : List (Str × Nat) :=
  [(strOf ("1210"), 6), (strOf ("1710"), 6), (strOf ("3310"), 7), (strOf ("3510"), 7)]

/-- Whether a sheet name ends in one of the four recognized codes. -/
def hasCode4 (s : Str) : Bool := (alookup target_suffixes (split_prefix_suffix4 s).2).isSome

abbrev Grouping := List (Str × List (Str × Str))

/-- Register one recognized sheet under its prefix; first occurrence wins for
a duplicate code under the same prefix (the defaultdict(dict) of the source).
-/
def addSheet (acc : Grouping) (p suf name : Str) : Grouping :=
  match acc with
  | [] => [(p, [(suf, name)])]
  | (q, m) :: rest =>
    if q = p then
      (if (alookup m suf).isSome then (q, m) :: rest else (q, m ++ [(suf, name)]) :: rest)
    else (q, m) :: addSheet rest p suf name

def classifyStep4 (acc : Grouping) (name : Str) : Grouping :=
  if hasCode4 name then
    addSheet acc ( normalize_prefix (split_prefix_suffix4 name).1) (split_prefix_suffix4 name).2 name
  else acc

/-- The Sheet Classifier with suffix length 4 (prefix_to_sheets of
run_code_1). -/
def classify4 (names : List Str) : Grouping := names.foldl classifyStep4 []

def codeNames : List Str := [strOf ("1210"), strOf ("1710"), strOf ("3310"), strOf ("3510")]

def itogoStr : Str := strOf ("итого")

/-- Counterparty name of a ledger row: column 0 as text, stripped. -/
def rowName (r : List Cell) : Str := pyStrip (pyStr (cellAt r 0))

/-- Value of a ledger row at the fixed column index: numeric coercion with
failures becoming 0 (to_numeric + fillna). -/
def rowValue (r : List Cell) (colIdx : Nat) : ℚ := (pyFloat (cellAt r colIdx)).getD 0

/-- The row filters of run_code_1 lines 81-85: nonzero value, non-blank name,
name not one of the four code strings, name not starting with итого
case-insensitively. -/
def keepRow (colIdx : Nat) (r : List Cell) : Bool :=
  decide (rowValue r colIdx ≠ 0) &&
  decide (rowName r ≠ []) &&
  !(codeNames.contains (rowName r)) &&
  !(itogoStr.isPrefixOf (pyLower (rowName r)))

/-- pandas groupby(name).sum(): one entry per distinct name, keys sorted
ascending. -/
def groupSum (l : List (Str × ℚ)) : List (Str × ℚ) :=
  (sortBy lexLt (dedup (l.map Prod.fst))).map
    (fun n => (n, ((l.filter (fun x => x.1 == n)).map Prod.snd).sum))

/-- One Counterparty Total series from one source sheet: data rows start
after the header row; a sheet with too few columns contributes nothing. -/
def readColS (s : Sheet) (colIdx : Nat) : List (Str × ℚ) :=
  if ncols s ≤ colIdx then []
  else groupSum (((s.drop 1).filter (keepRow colIdx)).map (fun r => (rowName r, rowValue r colIdx)))

/-- The series sheet_data(suf) for one code of one prefix group: empty when
the group has no sheet for the code. -/
def codeSeries (wb : Workbook) (m : List (Str × Str)) (suf : Str) (colIdx : Nat) : List (Str × ℚ) :=
  match alookup m suf with
  | none => []
  | some name => readColS (getSheet wb name) colIdx

/-- Series lookup with the missing-name default 0 (map + fillna(0)). -/
def lookup0 (s : List (Str × ℚ)) (n : Str) : ℚ := (alookup s n).getD 0

/-- sorted(set(a) union set(b)) of Python. -/
def unionSorted (a b : List Str) : List Str := sortBy lexLt (dedup (a ++ b))

/-- Descending sort by a numeric field (sort_values ascending = False). -/
def descBy {α : Type} (f : α → ℚ) (l : List α) : List α :=
  sortBy (fun x y => decide (f y < f x)) l

/-- The three display tables of one prefix: customer block rows
(name, 1210, 3510, saldo), supplier block rows (name, 1710, 3310, saldo) and
combined block rows (name, total saldo). -/
structure SaldoData where
  cust : List (Str × ℚ × ℚ × ℚ)
  supp : List (Str × ℚ × ℚ × ℚ)
  total : List (Str × ℚ)
deriving DecidableEq

def series1210 (wb : Workbook) (m : List (Str × Str)) : List (Str × ℚ) :=
  codeSeries wb m (strOf ("1210")) 6

def series1710 (wb : Workbook) (m : List (Str × Str)) : List (Str × ℚ) :=
  codeSeries wb m (strOf ("1710")) 6

def series3310 (wb : Workbook) (m : List (Str × Str)) : List (Str × ℚ) :=
  codeSeries wb m (strOf ("3310")) 7

def series3510 (wb : Workbook) (m : List (Str × Str)) : List (Str × ℚ) :=
  codeSeries wb m (strOf ("3510")) 7

/-- cust_set: counterparties of the customer codes 1210 and 3510, sorted. -/
def custSet (wb : Workbook) (m : List (Str × Str)) : List Str :=
  unionSorted ((series1210 wb m).map Prod.fst) ((series3510 wb m).map Prod.fst)

/-- supp_set: counterparties of the supplier codes 1710 and 3310, sorted. -/
def suppSet (wb : Workbook) (m : List (Str × Str)) : List Str :=
  unionSorted ((series1710 wb m).map Prod.fst) ((series3310 wb m).map Prod.fst)

/-- all_set: union of the customer and supplier counterparties, sorted. -/
def allSet (wb : Workbook) (m : List (Str × Str)) : List Str :=
  unionSorted (custSet wb m) (suppSet wb m)

/-- df_cust (lines 106-113): per customer-side counterparty its 1210 and
3510 totals each divided by 1000 and their difference, sorted descending by
the difference. -/
def custRows (wb : Workbook) (m : List (Str × Str)) : List (Str × ℚ × ℚ × ℚ) :=
  descBy (fun x => x.2.2.2) ((custSet wb m).map (fun n =>
    (n, lookup0 (series1210 wb m) n / 1000, lookup0 (series3510 wb m) n / 1000,
     lookup0 (series1210 wb m) n / 1000 - lookup0 (series3510 wb m) n / 1000)))

/-- df_supp (lines 115-123): per supplier-side counterparty its 1710 and
3310 totals each divided by 1000 and their difference, sorted descending. -/
def suppRows (wb : Workbook) (m : List (Str × Str)) : List (Str × ℚ × ℚ × ℚ) :=
  descBy (fun x => x.2.2.2) ((suppSet wb m).map (fun n =>
    (n, lookup0 (series1710 wb m) n / 1000, lookup0 (series3310 wb m) n / 1000,
     lookup0 (series1710 wb m) n / 1000 - lookup0 (series3310 wb m) n / 1000)))

/-- df_total (lines 126-135): per counterparty the combined figure
1210 + 1710 - 3310 - 3510 (each total divided by 1000), sorted descending.
-/
def totalRows (wb : Workbook) (m : List (Str × Str)) : List (Str × ℚ) :=
  descBy (fun x => x.2) ((allSet wb m).map (fun n =>
    (n, lookup0 (series1210 wb m) n / 1000 + lookup0 (series1710 wb m) n / 1000
        - lookup0 (series3310 wb m) n / 1000 - lookup0 (series3510 wb m) n / 1000)))

/-- The computation of run_code_1 lines 92-135 for one prefix group. -/
def saldoData (wb : Workbook) (m : List (Str × Str)) : SaldoData :=
  ⟨custRows wb m, suppRows wb m, totalRows wb m⟩

def saldStr : Str := strOf ("сальд")

def saldoSheetName (p : Str) : Str :=
  safe_sheet_name (if p = [] then saldStr else p ++ saldStr)

def captionStr : Str := strOf ("Все значения указаны в тысячах тенге")

def blank (k : Nat) : List Cell := List.replicate k Cell.empty

def custHdr : List Cell :=
  [Cell.str (strOf ("Контрагент")), Cell.str (strOf ("1210")), Cell.str (strOf ("3510")),
   Cell.str (strOf ("сальдо с заказчиками"))]

def suppHdr : List Cell :=
  [Cell.str (strOf ("Контрагент")), Cell.str (strOf ("1710")), Cell.str (strOf ("3310")),
   Cell.str (strOf ("сальдо с поставщиками"))]

def totalHdr : List Cell :=
  [Cell.str (strOf ("Контрагент")), Cell.str (strOf ("общее сальдо"))]

/-- Header row of the saldo output sheet (row 2): each block writes headers
only when it has data. -/
def headerRow (d : SaldoData) : List Cell :=
  blank 1 ++ (if d.cust = [] then blank 4 else custHdr)
  ++ blank 1 ++ (if d.supp = [] then blank 4 else suppHdr)
  ++ blank 1 ++ (if d.total = [] then blank 2 else totalHdr)

def quadCells (x : Str × ℚ × ℚ × ℚ) : List Cell :=
  [Cell.str x.1, Cell.num x.2.1, Cell.num x.2.2.1, Cell.num x.2.2.2]

def pairCells (x : Str × ℚ) : List Cell := [Cell.str x.1, Cell.num x.2]

/-- Data row 3+i of the saldo output sheet: block 1 at columns 2-5, block 2
at columns 7-10, block 3 at columns 12-13 (1-based), a blank column between
blocks. -/
def saldoRow (d : SaldoData) (i : Nat) : List Cell :=
  blank 1 ++ (match d.cust[i]? with | some x => quadCells x | none => blank 4)
  ++ blank 1 ++ (match d.supp[i]? with | some x => quadCells x | none => blank 4)
  ++ blank 1 ++ (match d.total[i]? with | some x => pairCells x | none => blank 2)

/-- The value grid stamped on a saldo output sheet (run_code_1 lines
143-247); the fixed fonts, widths and the number format are functions of the
same data and carry no further information. -/
def renderSaldo (d : SaldoData) : Sheet :=
  [Cell.str captionStr] :: headerRow d ::
  (List.range (max d.cust.length (max d.supp.length d.total.length))).map (saldoRow d)

/-- The output sheets of one Balance Aggregator run, in prefix order; a
prefix with no data in either block emits nothing. -/
def saldoOutputs (wb : Workbook) : List (Str × Sheet) :=
  (classify4 (sheetNames wb)).filterMap (fun pm =>
    if (saldoData wb pm.2).cust = [] ∧ (saldoData wb pm.2).supp = [] then none
    else some (saldoSheetName pm.1, renderSaldo (saldoData wb pm.2)))

/-- Replace-or-create a sheet: a pre-existing sheet of the same name is
removed first, the new sheet is appended (wb.remove + create_sheet). -/
def writeSheet (wb : Workbook) (n : Str) (s : Sheet) : Workbook :=
  wb.filter (fun e => !(e.1 == n)) ++ [(n, s)]

def applyOutputs (wb : Workbook) (outs : List (Str × Sheet)) : Workbook :=
  outs.foldl (fun w o => writeSheet w o.1 o.2) wb

def errMsg1 : Str := strOf ("Код 1: не найдено листов с окончаниями 1210/1710/3310/3510.")

/-- run_code_1: the Balance Aggregator.  Reads always come from the pristine
input (the source keeps a separate pd.ExcelFile over the original bytes), so
the run is the classification check followed by applying all outputs. -/
def run_code_1 (wb : Workbook) : Except Str Workbook :=
  if classify4 (sheetNames wb) = [] then Except.error errMsg1
  else Except.ok (applyOutputs wb (saldoOutputs wb))

-- =========================
-- CODE 2 (Contracts) : the Contract Aggregator
-- =========================

def wdStr : Str := strOf ("wd")

def mdStr : Str := strOf ("md")

def hasCode2 (s : Str) : Bool :=
  (split_prefix_suffix2 s).2 == wdStr || (split_prefix_suffix2 s).2 == mdStr

def classifyStep2 (acc : Grouping) (name : Str) : Grouping :=
  if hasCode2 name then
    addSheet acc ( normalize_prefix (split_prefix_suffix2 name).1) (split_prefix_suffix2 name).2 name
  else acc

/-- The Sheet Classifier with suffix length 2 (prefix_to_pair of run_code_2).
-/
def classify2 (names : List Str) : Grouping := names.foldl classifyStep2 []

/-- The prefixes usable by the Contract Aggregator: those with both a wd and
an md sheet. -/
def validGroups (g : Grouping) : Grouping :=
  g.filter (fun pm => (alookup pm.2 wdStr).isSome && (alookup pm.2 mdStr).isSome)

/-- Contract Record key: (trimmed name, trimmed contract), with a falsy cell
becoming the empty string. -/
abbrev CKey := Str × Str

abbrev Acc3 := List (CKey × (ℚ × ℚ × ℚ))
abbrev Acc12 := List (CKey × List ℚ)

def rowKey (r : List Cell) : CKey :=
  ((if falsy (cellAt r 0) then [] else pyStrip (pyStr (cellAt r 0))),
   (if falsy (cellAt r 1) then [] else pyStrip (pyStr (cellAt r 1))))

/-- Dict update with a default for a missing key (defaultdict): the entry is
created even when the increment then fails, because the subscript access
precedes the float conversion in target_dict(key)(idx) += float(v). -/
def aupdate {κ α : Type} [DecidableEq κ] (d : α) (f : α → α) : List (κ × α) → κ → List (κ × α)
  | [], k => [(k, f d)]
  | (k', v) :: rest, k => if k' = k then (k', f v) :: rest else (k', v) :: aupdate d f rest k

def addTriple (t : ℚ × ℚ × ℚ) (idx : Nat) (q : ℚ) : ℚ × ℚ × ℚ :=
  match idx with
  | 0 => (t.1 + q, t.2.1, t.2.2)
  | 1 => (t.1, t.2.1 + q, t.2.2)
  | _ => (t.1, t.2.1, t.2.2 + q)

/-- One yearly cell of collect_yearly: a None cell is skipped before the
dict is touched; a non-coercible cell touches the entry but adds nothing
(the except-pass branch); a numeric cell is added at its year index. -/
def yearCellStep (acc : Acc3) (k : CKey) (idx : Nat) (c : Cell) : Acc3 :=
  match c with
  | Cell.empty => acc
  | c =>
    match pyFloat c with
    | some q => aupdate (0, 0, 0) (fun t => addTriple t idx q) acc k
    | none => aupdate (0, 0, 0) id acc k

/-- One data row of collect_yearly: skipped when name and contract are both
falsy; otherwise columns C, D, E feed year indices 0, 1, 2. -/
def yearRowStep (acc : Acc3) (r : List Cell) : Acc3 :=
  if falsy (cellAt r 0) && falsy (cellAt r 1) then acc
  else
    (([(2, 0), (3, 1), (4, 2)] : List (Nat × Nat))).foldl
      (fun a ci => yearCellStep a (rowKey r) ci.2 (cellAt r ci.1)) acc

/-- collect_yearly of run_code_2: walk the data rows (from sheet row 2 on)
accumulating the three yearly totals per (name, contract) key. -/
def collect_yearly (s : Sheet) (acc : Acc3) : Acc3 := (s.drop 1).foldl yearRowStep acc

def zero12 : List ℚ := List.replicate 12 0

def monthCellStep (acc : Acc12) (k : CKey) (i : Nat) (c : Cell) : Acc12 :=
  match c with
  | Cell.empty => acc
  | c =>
    match pyFloat c with
    | some q => aupdate zero12 (fun l => l.set i (l.getD i 0 + q)) acc k
    | none => aupdate zero12 id acc k

/-- One data row of collect_monthly_2025: twelve cells starting at column AE
(1-based column 31, index 30). -/
def monthRowStep (acc : Acc12) (r : List Cell) : Acc12 :=
  if falsy (cellAt r 0) && falsy (cellAt r 1) then acc
  else (List.range 12).foldl (fun a i => monthCellStep a (rowKey r) i (cellAt r (30 + i))) acc

/-- collect_monthly_2025 of run_code_2. -/
def collect_monthly_2025 (s : Sheet) (acc : Acc12) : Acc12 := (s.drop 1).foldl monthRowStep acc

/-- Ordering of the reporting keys: lexicographic by (name, contract). -/
def keyLt (a b : CKey) : Bool :=
  lexLt a.1 b.1 || (a.1 == b.1 && lexLt a.2 b.2)

/-- The VAT gross-up factor 1.12 applied to performance totals. -/
def vatFactor : ℚ := 112 / 100

def natStr (n : Nat) : Str := strOf (toString n)

def sumFormulaCE (r : Nat) : Str :=
  strOf ("=SUM(C") ++ natStr r ++ strOf (":E") ++ natStr r ++ strOf (")")

def sumFormulaGI (r : Nat) : Str :=
  strOf ("=SUM(G") ++ natStr r ++ strOf (":I") ++ natStr r ++ strOf (")")

def subFormulaJF (r : Nat) : Str :=
  strOf ("=J") ++ natStr r ++ strOf ("-F") ++ natStr r

def oplataStr : Str := strOf ("оплата")

def vypStr : Str := strOf ("выполнения с ндс")

def totalStr : Str := strOf ("Total")

/-- Row 1 of the contracts output sheet: captions at columns A, C, G, M, Y.
-/
def contrRow1 : List Cell :=
  [Cell.str (strOf ("ИТОГО в тыс тенге")), Cell.empty, Cell.str oplataStr]
  ++ blank 3 ++ [Cell.str vypStr] ++ blank 5 ++ [Cell.str oplataStr]
  ++ blank 11 ++ [Cell.str vypStr]

def monthLabel (i : Nat) : Str :=
  strOf ("2025_") ++ (if i + 1 < 10 then ['0'] else []) ++ strOf (toString (i + 1))

def monthLabels : List Str := (List.range 12).map monthLabel

/-- Row 2 of the contracts output sheet: the column headers A..K plus the
twelve monthly labels at M..X and again at Y..AJ. -/
def contrRow2 : List Cell :=
  [Cell.str (strOf ("Контрагент")), Cell.str (strOf ("Договор")),
   Cell.num 2023, Cell.num 2024, Cell.num 2025, Cell.str totalStr,
   Cell.num 2023, Cell.num 2024, Cell.num 2025, Cell.str totalStr,
   Cell.str (strOf ("дз/(аванс)")), Cell.empty]
  ++ monthLabels.map Cell.str ++ monthLabels.map Cell.str

/-- One data row of the contracts output sheet, at sheet row r: name,
contract, yearly payments (unscaled), a C..E sum formula, yearly performance
scaled by 1.12, a G..I sum formula, the J-F formula, twelve monthly payments
(unscaled), twelve monthly performance values scaled by 1.12. -/
def contrDataRow (r : Nat) (k : CKey) (py pf : ℚ × ℚ × ℚ) (mp mf : List ℚ) : List Cell :=
  [Cell.str k.1, Cell.str k.2,
   Cell.num py.1, Cell.num py.2.1, Cell.num py.2.2,
   Cell.str (sumFormulaCE r),
   Cell.num (pf.1 * vatFactor), Cell.num (pf.2.1 * vatFactor), Cell.num (pf.2.2 * vatFactor),
   Cell.str (sumFormulaGI r),
   Cell.str (subFormulaJF r),
   Cell.empty]
  ++ (List.range 12).map (fun i => Cell.num (mp.getD i 0))
  ++ (List.range 12).map (fun i => Cell.num ((mf.getD i 0) * vatFactor))

/-- The reporting key set: union of the keys of the four accumulators,
sorted by (name, contract). -/
def allKeys (py pf : Acc3) (mp mf : Acc12) : List CKey :=
  sortBy keyLt (dedup (py.map Prod.fst ++ pf.map Prod.fst ++ mp.map Prod.fst ++ mf.map Prod.fst))

/-- The value grid stamped on one contracts output sheet (run_code_2 lines
345-402): header rows then one data row per key from sheet row 3 on. -/
def renderContr (py pf : Acc3) (mp mf : Acc12) : Sheet :=
  contrRow1 :: contrRow2 ::
  (allKeys py pf mp mf).enum.map (fun e =>
    contrDataRow (3 + e.1) e.2
      ((alookup py e.2).getD (0, 0, 0)) ((alookup pf e.2).getD (0, 0, 0))
      ((alookup mp e.2).getD zero12) ((alookup mf e.2).getD zero12))

def kontrStr : Str := strOf ("контр")

def contrSheetName (p : Str) : Str :=
  safe_sheet_name (if p = [] then kontrStr else p ++ kontrStr)

/-- The contracts output for one prefix pair: payments from the wd sheet,
performance from the md sheet. -/
def contrOutput (w : Workbook) (m : List (Str × Str)) : Sheet :=
  let wd := getSheet w ((alookup m wdStr).getD [])
  let md := getSheet w ((alookup m mdStr).getD [])
  renderContr (collect_yearly wd []) (collect_yearly md [])
    (collect_monthly_2025 wd []) (collect_monthly_2025 md [])

def errMsg2 : Str := strOf ("Код 2: не найдено пар листов (Wd/Md) по префиксам.")

/-- run_code_2: the Contract Aggregator.  The classification happens before
any write; with no qualifying pair it fails there, leaving the workbook
untouched.  Reads use the same in-memory workbook being written (the source
reuses the single openpyxl workbook). -/
def run_code_2 (wb : Workbook) : Except Str Workbook :=
  let vg := validGroups (classify2 (sheetNames wb))
  if vg = [] then Except.error errMsg2
  else Except.ok (vg.foldl (fun w pm => writeSheet w (contrSheetName pm.1) (contrOutput w pm.2)) wb)

-- =========================
-- General helper lemmas
-- =========================

theorem mem_insertSorted {α : Type} (r : α → α → Bool) (a x : α) (l : List α) :
    x ∈ insertSorted r a l ↔ x = a ∨ x ∈ l := by
  induction l with
  | nil => simp [insertSorted]
  | cons b bs ih =>
    simp only [insertSorted]
    split
    · simp
    · simp [ih]
      tauto

theorem mem_sortBy {α : Type} (r : α → α → Bool) (x : α) (l : List α) :
    x ∈ sortBy r l ↔ x ∈ l := by
  induction l with
  | nil => simp [sortBy]
  | cons b bs ih =>
    have h : sortBy r (b :: bs) = insertSorted r b (sortBy r bs) := rfl
    rw [h, mem_insertSorted, ih]
    simp

theorem mem_dedupAux {α : Type} [DecidableEq α] (x : α) (l seen : List α) :
    x ∈ dedupAux seen l ↔ x ∈ l ∧ x ∉ seen := by
  induction l generalizing seen with
  | nil => simp [dedupAux]
  | cons a rest ih =>
    simp only [dedupAux]
    split
    · rename_i ha
      rw [ih]
      constructor
      · rintro ⟨h1, h2⟩
        exact ⟨List.mem_cons_of_mem a h1, h2⟩
      · rintro ⟨h1, h2⟩
        rcases List.mem_cons.mp h1 with h1 | h1
        · subst h1; exact absurd ha h2
        · exact ⟨h1, h2⟩
    · rename_i ha
      simp only [List.mem_cons, ih]
      constructor
      · rintro (h | ⟨h1, h2⟩)
        · subst h; exact ⟨Or.inl rfl, ha⟩
        · refine ⟨Or.inr h1, ?_⟩
          intro hx
          exact h2 (by simp [hx])
      · rintro ⟨h1 | h1, h2⟩
        · exact Or.inl h1
        · by_cases hxa : x = a
          · exact Or.inl hxa
          · exact Or.inr ⟨h1, by simp [h2, hxa]⟩

theorem mem_dedup {α : Type} [DecidableEq α] (x : α) (l : List α) :
    x ∈ dedup l ↔ x ∈ l := by
  simp [dedup, mem_dedupAux]

theorem alookup_mem {κ α : Type} [DecidableEq κ] {l : List (κ × α)} {k : κ} {v : α}
    (h : alookup l k = some v) : (k, v) ∈ l := by
  induction l with
  | nil => simp [alookup] at h
  | cons e rest ih =>
    rcases e with ⟨k', v'⟩
    simp only [alookup] at h
    split at h
    · rename_i hk
      cases h
      subst hk
      simp
    · simp [ih h]

theorem alookup_append {κ α : Type} [DecidableEq κ] (l₁ l₂ : List (κ × α)) (k : κ) :
    alookup (l₁ ++ l₂) k =
      (match alookup l₁ k with | some v => some v | none => alookup l₂ k) := by
  induction l₁ with
  | nil => simp [alookup]
  | cons e rest ih =>
    rcases e with ⟨k', v'⟩
    simp only [alookup, List.cons_append]
    split
    · rfl
    · exact ih

theorem mem_unionSorted (n : Str) (a b : List Str) :
    n ∈ unionSorted a b ↔ n ∈ a ∨ n ∈ b := by
  simp [unionSorted, mem_sortBy, mem_dedup]

theorem mem_descBy {α : Type} (f : α → ℚ) (x : α) (l : List α) :
    x ∈ descBy f l ↔ x ∈ l := by
  simp [descBy, mem_sortBy]

/-- A name carrying an entry of a grouped series occurs among the names of
the ungrouped rows. -/
theorem groupSum_name_mem {l : List (Str × ℚ)} {n : Str} {v : ℚ}
    (h : (n, v) ∈ groupSum l) : n ∈ l.map Prod.fst := by
  simp only [groupSum, List.mem_map] at h
  rcases h with ⟨n', hn', he⟩
  cases he
  rw [mem_sortBy, mem_dedup] at hn'
  exact hn'

/-- A name carrying an entry of a Counterparty Total passed every row
filter: non-blank, not one of the four code strings, no итого marker. -/
theorem readColS_name_props {s : Sheet} {c : Nat} {n : Str} {v : ℚ}
    (h : (n, v) ∈ readColS s c) :
    n ≠ [] ∧ codeNames.contains n = false ∧ itogoStr.isPrefixOf (pyLower n) = false := by
  simp only [readColS] at h
  split at h
  · simp at h
  · have h2 := groupSum_name_mem h
    simp only [List.map_map, List.mem_map, Function.comp] at h2
    rcases h2 with ⟨r, hr, he⟩
    rw [List.mem_filter] at hr
    have hk := hr.2
    simp only [keepRow, Bool.and_eq_true, decide_eq_true_eq, Bool.not_eq_true'] at hk
    subst he
    exact ⟨hk.1.1.2, hk.1.2, hk.2⟩

/-- Those same row filters apply to every series of a prefix group. -/
theorem codeSeries_name_props {wb : Workbook} {m : List (Str × Str)} {suf : Str} {c : Nat}
    {n : Str} {v : ℚ} (h : (n, v) ∈ codeSeries wb m suf c) :
    n ≠ [] ∧ codeNames.contains n = false ∧ itogoStr.isPrefixOf (pyLower n) = false := by
  simp only [codeSeries] at h
  split at h
  · simp at h
  · exact readColS_name_props h

-- =========================
-- Claim C1
-- =========================

/-- Modelled from the claim wording (not from the source): combined net =
sum of the two customer-block codes 1210 and 3510 (each divided by 1000)
minus the sum of the two supplier-block codes 1710 and 3310 (each divided
by 1000). -/
def combinedClaim (wb : Workbook) (m : List (Str × Str)) (n : Str) : ℚ :=
  (lookup0 (series1210 wb m) n / 1000 + lookup0 (series3510 wb m) n / 1000)
  - (lookup0 (series1710 wb m) n / 1000 + lookup0 (series3310 wb m) n / 1000)

def wbC1 : Workbook :=
  [(strOf ("x3510"),
    [List.replicate 8 Cell.empty,
     [Cell.str (strOf ("ACME")), Cell.empty, Cell.empty, Cell.empty, Cell.empty, Cell.empty,
      Cell.empty, Cell.num 1000]])]

def mC1 : List (Str × Str) := [(strOf ("3510"), strOf ("x3510"))]

/-- C1, counterexample: for the single-sheet workbook wbC1 (code 3510,
counterparty ACME, value 1000) the combined figure the code writes is -1,
while the combined figure of the claim is +1. -/
theorem C1_counterexample :
    classify4 (sheetNames wbC1) = [(strOf ("x"), mC1)] ∧
    (saldoData wbC1 mC1).total = [(strOf ("ACME"), -1)] ∧
    combinedClaim wbC1 mC1 (strOf ("ACME")) = 1 ∧
    (-1 : ℚ) ≠ 1 := by
  refine ⟨by decide!, by decide!, by decide!, by decide!⟩

/-- C1, amended: the combined net figure written to the third block equals
the 1210 total plus the 1710 total minus the 3310 total minus the 3510 total
(each first divided by 1000, missing codes defaulting to zero) — that is,
customer net plus supplier net, not customer sum minus supplier sum. -/
theorem C1_theorem (wb : Workbook) (m : List (Str × Str)) (n : Str) (v : ℚ)
    (h : (n, v) ∈ (saldoData wb m).total) :
    v = lookup0 (series1210 wb m) n / 1000 + lookup0 (series1710 wb m) n / 1000
        - lookup0 (series3310 wb m) n / 1000 - lookup0 (series3510 wb m) n / 1000 := by
  have h' : (n, v) ∈ totalRows wb m := h
  rw [totalRows, mem_descBy, List.mem_map] at h'
  rcases h' with ⟨n', _, he⟩
  cases he
  rfl

/-- C1, witness for the amended theorem at the concrete workbook wbC1. -/
theorem C1_witness :
    ((strOf ("ACME"), -1) ∈ (saldoData wbC1 mC1).total) ∧
    (-1 : ℚ) = lookup0 (series1210 wbC1 mC1) (strOf ("ACME")) / 1000
        + lookup0 (series1710 wbC1 mC1) (strOf ("ACME")) / 1000
        - lookup0 (series3310 wbC1 mC1) (strOf ("ACME")) / 1000
        - lookup0 (series3510 wbC1 mC1) (strOf ("ACME")) / 1000 :=
  ⟨by decide!, C1_theorem wbC1 mC1 (strOf ("ACME")) (-1) (by decide!)⟩

-- =========================
-- Claim C2
-- =========================

def wbC2 : Workbook := [(strOf ("a1210"), [[]])]

/-- C2, counterexample: wbC2 has a recognized group (code 1210) whose
aggregates are all empty, yet the Balance Aggregator returns normally with
the workbook unchanged instead of failing with a no-usable-data condition.
-/
theorem C2_counterexample :
    classify4 (sheetNames wbC2) ≠ [] ∧
    (∀ pm ∈ classify4 (sheetNames wbC2),
      (saldoData wbC2 pm.2).cust = [] ∧ (saldoData wbC2 pm.2).supp = []) ∧
    (run_code_1 wbC2).toOption = some wbC2 := by
  refine ⟨by decide!, by decide!, by decide!⟩

/-- C2, amended: when the classifier finds at least one group but every
group yields empty aggregates, run_code_1 returns normally and leaves the
workbook untouched; no no-usable-data failure exists (the only failure is
the no-recognized-sheets one). -/
theorem C2_theorem (wb : Workbook) (h : classify4 (sheetNames wb) ≠ [])
    (h2 : ∀ pm ∈ classify4 (sheetNames wb),
      (saldoData wb pm.2).cust = [] ∧ (saldoData wb pm.2).supp = []) :
    run_code_1 wb = Except.ok wb := by
  have hout : saldoOutputs wb = [] := by
    simp only [saldoOutputs]
    rw [List.filterMap_eq_nil_iff]
    intro pm hpm
    have hd := h2 pm hpm
    simp [hd.1, hd.2]
  rw [run_code_1, if_neg h, hout]
  rfl

/-- C2, witness for the amended theorem at the concrete workbook wbC2. -/
theorem C2_witness :
    classify4 (sheetNames wbC2) ≠ [] ∧ run_code_1 wbC2 = Except.ok wbC2 :=
  ⟨by decide!, C2_theorem wbC2 (by decide!) (by decide!)⟩

-- =========================
-- Claim C3
-- =========================

def wbC3 : Workbook :=
  [(strOf ("awd"), [[], [Cell.str (strOf ("   ")), Cell.str (strOf ("C-1")), Cell.num 100]]),
   (strOf ("amd"), [[]])]

/-- C3, counterexample: a Contract Aggregator input row whose name cell is
whitespace only (trimming to the empty string) with a non-empty contract
cell contributes a record, and the rendered name cell of its output row is
the empty string. -/
theorem C3_counterexample :
    pyStrip (strOf ("   ")) = [] ∧
    cellAt ((getSheet ((run_code_2 wbC3).toOption.getD []) (contrSheetName (strOf ("a")))).getD
      2 []) 0 = Cell.str [] ∧
    cellAt ((getSheet ((run_code_2 wbC3).toOption.getD []) (contrSheetName (strOf ("a")))).getD
      2 []) 1 = Cell.str (strOf ("C-1")) := by
  refine ⟨by decide!, by decide!, by decide!⟩

/-- C3, amended: in the Balance Aggregator every data row of every block
carries a non-empty counterparty name; the Contract Aggregator, however,
renders an empty name for a contributing row whose name trims to empty. -/
theorem C3_theorem (wb : Workbook) (m : List (Str × Str)) :
    (∀ x ∈ (saldoData wb m).cust, x.1 ≠ []) ∧
    (∀ x ∈ (saldoData wb m).supp, x.1 ≠ []) ∧
    (∀ x ∈ (saldoData wb m).total, x.1 ≠ []) := by
  have hc : ∀ n ∈ custSet wb m, n ≠ [] := by
    intro n hn
    rw [custSet, mem_unionSorted] at hn
    rcases hn with hn | hn <;>
    · rw [List.mem_map] at hn
      rcases hn with ⟨⟨n', v⟩, hmem, he⟩
      cases he
      exact (codeSeries_name_props hmem).1
  have hs : ∀ n ∈ suppSet wb m, n ≠ [] := by
    intro n hn
    rw [suppSet, mem_unionSorted] at hn
    rcases hn with hn | hn <;>
    · rw [List.mem_map] at hn
      rcases hn with ⟨⟨n', v⟩, hmem, he⟩
      cases he
      exact (codeSeries_name_props hmem).1
  refine ⟨?_, ?_, ?_⟩
  · intro x hx
    have h' : x ∈ custRows wb m := hx
    rw [custRows, mem_descBy, List.mem_map] at h'
    rcases h' with ⟨n', hn', he⟩
    cases he
    exact hc n' hn'
  · intro x hx
    have h' : x ∈ suppRows wb m := hx
    rw [suppRows, mem_descBy, List.mem_map] at h'
    rcases h' with ⟨n', hn', he⟩
    cases he
    exact hs n' hn'
  · intro x hx
    have h' : x ∈ totalRows wb m := hx
    rw [totalRows, mem_descBy, List.mem_map] at h'
    rcases h' with ⟨n', hn', he⟩
    cases he
    rw [allSet, mem_unionSorted] at hn'
    rcases hn' with hn' | hn'
    · exact hc n' hn'
    · exact hs n' hn'

def wbC3b : Workbook :=
  [(strOf ("x3510"),
    [List.replicate 8 Cell.empty,
     [Cell.str (strOf ("BETA")), Cell.empty, Cell.empty, Cell.empty, Cell.empty, Cell.empty,
      Cell.empty, Cell.num 1000]])]

def mC3b : List (Str × Str) := [(strOf ("3510"), strOf ("x3510"))]

/-- C3, witness for the amended theorem at the concrete workbook wbC3b. -/
theorem C3_witness :
    ((strOf ("BETA"), 0, 1, -1) ∈ (saldoData wbC3b mC3b).cust) ∧ strOf ("BETA") ≠ [] :=
  ⟨by decide!, (C3_theorem wbC3b mC3b).1 (strOf ("BETA"), 0, 1, -1) (by decide!)⟩

-- =========================
-- Claim C4
-- =========================

def sheetC4 : Sheet := [[], [Cell.str (strOf ("Итого")), Cell.empty, Cell.num 100]]

/-- C4, counterexample: a Contract Aggregator payment-sheet row whose
trimmed name is Итого (which starts with итого case-insensitively)
contributes 100 to the 2023 yearly total — the Contract Aggregator has no
итого filter. -/
theorem C4_counterexample :
    itogoStr.isPrefixOf (pyLower (pyStrip (strOf ("Итого")))) = true ∧
    collect_yearly sheetC4 [] = [((strOf ("Итого"), []), (100, 0, 0))] ∧
    ((100 : ℚ), (0 : ℚ), (0 : ℚ)) ≠ ((0 : ℚ), (0 : ℚ), (0 : ℚ)) := by
  refine ⟨by decide!, by decide!, by decide!⟩

/-- C4, amended: in the Balance Aggregator a row whose trimmed name starts
with итого case-insensitively fails the row filter and no such name carries
an entry in any Counterparty Total; the Contract Aggregator applies no such
exclusion. -/
theorem C4_theorem (colIdx : Nat) (r : List Cell) (s : Sheet) (c : Nat) (n : Str) :
    (itogoStr.isPrefixOf (pyLower (rowName r)) = true → keepRow colIdx r = false) ∧
    (itogoStr.isPrefixOf (pyLower n) = true → alookup (readColS s c) n = none) := by
  constructor
  · intro h
    simp [keepRow, h]
  · intro h
    cases h2 : alookup (readColS s c) n with
    | none => rfl
    | some v =>
      have h3 := readColS_name_props (alookup_mem h2)
      rw [h3.2.2] at h
      cases h

def rowC4 : List Cell :=
  [Cell.str (strOf ("ИТОГО по счету")), Cell.empty, Cell.empty, Cell.empty, Cell.empty,
   Cell.empty, Cell.num 500]

/-- C4, witness for the amended theorem at a concrete row and sheet. -/
theorem C4_witness :
    (itogoStr.isPrefixOf (pyLower (rowName rowC4)) = true ∧ keepRow 6 rowC4 = false) ∧
    (itogoStr.isPrefixOf (pyLower (strOf ("итого"))) = true ∧
      alookup (readColS ([[], rowC4] : Sheet) 6) (strOf ("итого")) = none) :=
  ⟨⟨by decide!, (C4_theorem 6 rowC4 [[], rowC4] 6 (strOf ("итого"))).1 (by decide!)⟩,
   ⟨by decide!, (C4_theorem 6 rowC4 [[], rowC4] 6 (strOf ("итого"))).2 (by decide!)⟩⟩

-- =========================
-- Claim C5
-- =========================

def wbC5 : Workbook :=
  [(strOf ("y3510"),
    [List.replicate 8 Cell.empty,
     [Cell.str (strOf ("ACME")), Cell.empty, Cell.empty, Cell.empty, Cell.empty, Cell.empty,
      Cell.num 5, Cell.num 9]])]

def mC5 : List (Str × Str) := [(strOf ("3510"), strOf ("y3510"))]

/-- C5, counterexample: code 3510 is mapped to column index 7, not 6: with
5 in column 6 and 9 in column 7 of the 3510 sheet, the customer block shows
the column-7 value 9 (divided by 1000) for ACME. -/
theorem C5_counterexample :
    alookup target_suffixes (strOf ("3510")) = some 7 ∧
    (saldoData wbC5 mC5).cust = [(strOf ("ACME"), 0, 9 / 1000, -(9 / 1000))] ∧
    (9 : ℚ) / 1000 ≠ 5 / 1000 := by
  refine ⟨by decide!, by decide!, by decide!⟩

/-- C5, amended: the value column is 6 for codes 1210 and 1710 and 7 for
codes 3310 and 3510; accordingly the customer block pairs the column-6
series of 1210 with the column-7 series of 3510, and the supplier block the
column-6 series of 1710 with the column-7 series of 3310. -/
theorem C5_theorem :
    alookup target_suffixes (strOf ("1210")) = some 6 ∧
    alookup target_suffixes (strOf ("1710")) = some 6 ∧
    alookup target_suffixes (strOf ("3310")) = some 7 ∧
    alookup target_suffixes (strOf ("3510")) = some 7 ∧
    (∀ (wb : Workbook) (m : List (Str × Str)) (x : Str × ℚ × ℚ × ℚ),
      x ∈ (saldoData wb m).cust →
        x.2.1 = lookup0 (series1210 wb m) x.1 / 1000 ∧
        x.2.2.1 = lookup0 (series3510 wb m) x.1 / 1000) ∧
    (∀ (wb : Workbook) (m : List (Str × Str)) (x : Str × ℚ × ℚ × ℚ),
      x ∈ (saldoData wb m).supp →
        x.2.1 = lookup0 (series1710 wb m) x.1 / 1000 ∧
        x.2.2.1 = lookup0 (series3310 wb m) x.1 / 1000) := by
  refine ⟨by decide!, by decide!, by decide!, by decide!, ?_, ?_⟩
  · intro wb m x hx
    have h' : x ∈ custRows wb m := hx
    rw [custRows, mem_descBy, List.mem_map] at h'
    rcases h' with ⟨n', _, he⟩
    cases he
    exact ⟨rfl, rfl⟩
  · intro wb m x hx
    have h' : x ∈ suppRows wb m := hx
    rw [suppRows, mem_descBy, List.mem_map] at h'
    rcases h' with ⟨n', _, he⟩
    cases he
    exact ⟨rfl, rfl⟩

/-- C5, witness for the amended theorem at the concrete workbook wbC5. -/
theorem C5_witness :
    ((strOf ("ACME"), 0, 9 / 1000, -(9 / 1000)) ∈ (saldoData wbC5 mC5).cust) ∧
    (0 : ℚ) = lookup0 (series1210 wbC5 mC5) (strOf ("ACME")) / 1000 ∧
    (9 : ℚ) / 1000 = lookup0 (series3510 wbC5 mC5) (strOf ("ACME")) / 1000 := by
  refine ⟨by decide!, ?_⟩
  have h := C5_theorem.2.2.2.2.1 wbC5 mC5 (strOf ("ACME"), 0, 9 / 1000, -(9 / 1000)) (by decide!)
  exact ⟨h.1, h.2⟩

-- =========================
-- Claim C6
-- =========================

/-- C6: when no prefix has both a wd and an md sheet, run_code_2 fails with
the no-matching-pairs message; the failure happens before any sheet is
created, removed or modified, so no workbook is produced at all. -/
theorem C6_theorem (wb : Workbook)
    (h : validGroups (classify2 (sheetNames wb)) = []) :
    run_code_2 wb = Except.error errMsg2 := by
  rw [run_code_2]
  simp only [h]
  rfl

def wbC6 : Workbook := [(strOf ("abc"), [[]]), (strOf ("xwd"), [[]])]

/-- C6, witness: a workbook with a wd sheet but no md partner fails with the
no-matching-pairs error. -/
theorem C6_witness :
    validGroups (classify2 (sheetNames wbC6)) = [] ∧ run_code_2 wbC6 = Except.error errMsg2 :=
  ⟨by decide!, C6_theorem wbC6 (by decide!)⟩

-- =========================
-- Claim C7
-- =========================

theorem aupdate_id_getD {κ α : Type} [DecidableEq κ] (d : α) (l : List (κ × α)) (k k' : κ) :
    (alookup (aupdate d id l k) k').getD d = (alookup l k').getD d := by
  induction l with
  | nil =>
    simp only [aupdate, alookup, id]
    split <;> simp
  | cons e rest ih =>
    rcases e with ⟨k0, v⟩
    simp only [aupdate]
    split
    · simp [alookup]
    · simp only [alookup]
      split
      · rfl
      · exact ih

/-- C7: a non-coercible value cell contributes exactly zero everywhere and
is never an error: in the Balance Aggregator its row value becomes 0 and the
row is dropped by the nonzero filter; in the Contract Aggregator the yearly
and monthly accumulators are numerically unchanged (at most a zero entry is
created).  All the modelled functions are total: no aggregation path aborts.
-/
theorem C7_theorem :
    (∀ (r : List Cell) (c : Nat), pyFloat (cellAt r c) = none →
      rowValue r c = 0 ∧ keepRow c r = false) ∧
    (∀ (acc : Acc3) (k k' : CKey) (idx : Nat) (cell : Cell), pyFloat cell = none →
      (alookup (yearCellStep acc k idx cell) k').getD (0, 0, 0)
        = (alookup acc k').getD (0, 0, 0)) ∧
    (∀ (acc : Acc12) (k k' : CKey) (i : Nat) (cell : Cell), pyFloat cell = none →
      (alookup (monthCellStep acc k i cell) k').getD zero12
        = (alookup acc k').getD zero12) := by
  refine ⟨?_, ?_, ?_⟩
  · intro r c h
    have hv : rowValue r c = 0 := by rw [rowValue, h]; rfl
    exact ⟨hv, by simp [keepRow, hv]⟩
  · intro acc k k' idx cell h
    cases cell with
    | empty => rfl
    | num q => simp [pyFloat] at h
    | str s =>
      show (alookup (aupdate (0, 0, 0) id acc k) k').getD (0, 0, 0)
        = (alookup acc k').getD (0, 0, 0)
      exact aupdate_id_getD (0, 0, 0) acc k k'
  · intro acc k k' i cell h
    cases cell with
    | empty => rfl
    | num q => simp [pyFloat] at h
    | str s =>
      show (alookup (aupdate zero12 id acc k) k').getD zero12 = (alookup acc k').getD zero12
      exact aupdate_id_getD zero12 acc k k'

def rowC7 : List Cell :=
  [Cell.str (strOf ("ACME")), Cell.empty, Cell.empty, Cell.empty, Cell.empty, Cell.empty,
   Cell.str (strOf ("n/a"))]

def keyC7 : CKey := (strOf ("ACME"), strOf ("D-1"))

/-- C7, witness at a concrete non-numeric cell for all three parts. -/
theorem C7_witness :
    (pyFloat (cellAt rowC7 6) = none ∧ rowValue rowC7 6 = 0 ∧ keepRow 6 rowC7 = false) ∧
    ((alookup (yearCellStep [] keyC7 0 (Cell.str (strOf ("n/a")))) keyC7).getD (0, 0, 0)
      = (alookup ([] : Acc3) keyC7).getD (0, 0, 0)) ∧
    ((alookup (monthCellStep [] keyC7 3 (Cell.str (strOf ("n/a")))) keyC7).getD zero12
      = (alookup ([] : Acc12) keyC7).getD zero12) :=
  ⟨⟨by decide!, (C7_theorem.1 rowC7 6 (by decide!)).1, (C7_theorem.1 rowC7 6 (by decide!)).2⟩,
   C7_theorem.2.1 [] keyC7 keyC7 0 (Cell.str (strOf ("n/a"))) (by decide!),
   C7_theorem.2.2 [] keyC7 keyC7 3 (Cell.str (strOf ("n/a"))) (by decide!)⟩

-- =========================
-- Claim C8
-- =========================

/-- C8: in every rendered contracts data row, the three yearly performance
cells (columns G, H, I) and the twelve monthly performance cells (columns
Y..AJ) hold the accumulated performance totals multiplied by exactly the
factor vatFactor = 1.12, while the yearly payment cells (C, D, E) and the
twelve monthly payment cells (M..X) hold the accumulated payment totals
unscaled. -/
theorem C8_theorem (py pf : Acc3) (mp mf : Acc12) (i : Nat) (k : CKey)
    (hk : (allKeys py pf mp mf)[i]? = some k) :
    ∃ row, (renderContr py pf mp mf)[2 + i]? = some row ∧
      cellAt row 2 = Cell.num ((alookup py k).getD (0, 0, 0)).1 ∧
      cellAt row 3 = Cell.num ((alookup py k).getD (0, 0, 0)).2.1 ∧
      cellAt row 4 = Cell.num ((alookup py k).getD (0, 0, 0)).2.2 ∧
      cellAt row 6 = Cell.num (((alookup pf k).getD (0, 0, 0)).1 * vatFactor) ∧
      cellAt row 7 = Cell.num (((alookup pf k).getD (0, 0, 0)).2.1 * vatFactor) ∧
      cellAt row 8 = Cell.num (((alookup pf k).getD (0, 0, 0)).2.2 * vatFactor) ∧
      (∀ j, j < 12 → cellAt row (12 + j) = Cell.num (((alookup mp k).getD zero12).getD j 0)) ∧
      (∀ j, j < 12 →
        cellAt row (24 + j) = Cell.num ((((alookup mf k).getD zero12).getD j 0) * vatFactor)) := by
  refine ⟨contrDataRow (3 + i) k ((alookup py k).getD (0, 0, 0)) ((alookup pf k).getD (0, 0, 0))
    ((alookup mp k).getD zero12) ((alookup mf k).getD zero12), ?_, ?_⟩
  · show (renderContr py pf mp mf)[2 + i]? = _
    rw [renderContr]
    rw [show 2 + i = (1 + i) + 1 from by omega]
    rw [List.getElem?_cons_succ]
    rw [show 1 + i = i + 1 from by omega]
    rw [List.getElem?_cons_succ]
    rw [List.getElem?_map, List.enum, List.getElem?_enumFrom, hk]
    simp
  · refine ⟨rfl, rfl, rfl, rfl, rfl, rfl, ?_, ?_⟩
    · intro j hj
      interval_cases j <;> rfl
    · intro j hj
      interval_cases j <;> rfl

def accC8 : Acc3 := [((strOf ("A"), strOf ("D")), (1000, 0, 0))]

/-- C8, witness: an accumulated 2023 performance total of 1000 renders as
exactly 1120 in column G. -/
theorem C8_witness :
    (allKeys [] accC8 [] [])[0]? = some (strOf ("A"), strOf ("D")) ∧
    (∃ row, (renderContr [] accC8 [] [])[2 + 0]? = some row ∧
      cellAt row 6 = Cell.num 1120) := by
  refine ⟨by decide!, ?_⟩
  obtain ⟨row, hrow, _, _, _, h6, _⟩ :=
    C8_theorem [] accC8 [] [] 0 (strOf ("A"), strOf ("D")) (by decide!)
  refine ⟨row, hrow, ?_⟩
  rw [h6]
  congr 1
  decide!

-- =========================
-- Claim C10
-- =========================

/-- C10: a row whose trimmed name is exactly one of 1210, 1710, 3310, 3510
fails the Balance Aggregator row filter, and no such name carries an entry
in any Counterparty Total. -/
theorem C10_theorem (colIdx : Nat) (r : List Cell) (s : Sheet) (c : Nat) (n : Str) :
    (rowName r ∈ codeNames → keepRow colIdx r = false) ∧
    (n ∈ codeNames → alookup (readColS s c) n = none) := by
  constructor
  · intro h
    simp only [keepRow, Bool.and_eq_false_iff]
    refine Or.inl (Or.inr ?_)
    simp only [Bool.not_eq_false', List.contains_iff_exists_mem_beq]
    exact ⟨rowName r, h, by simp⟩
  · intro h
    cases h2 : alookup (readColS s c) n with
    | none => rfl
    | some v =>
      have h3 := (readColS_name_props (alookup_mem h2)).2.1
      have hcon : codeNames.contains n = true := by
        rw [List.contains_iff_exists_mem_beq]
        exact ⟨n, h, by simp⟩
      rw [h3] at hcon
      cases hcon

def rowC10 : List Cell :=
  [Cell.str (strOf ("1710")), Cell.empty, Cell.empty, Cell.empty, Cell.empty, Cell.empty,
   Cell.num 42]

/-- C10, witness at a concrete row whose name is the code string 1710. -/
theorem C10_witness :
    (rowName rowC10 ∈ codeNames ∧ keepRow 6 rowC10 = false) ∧
    (strOf ("1710") ∈ codeNames ∧
      alookup (readColS ([[], rowC10] : Sheet) 6) (strOf ("1710")) = none) :=
  ⟨⟨by decide!, (C10_theorem 6 rowC10 [[], rowC10] 6 (strOf ("1710"))).1 (by decide!)⟩,
   ⟨by decide!, (C10_theorem 6 rowC10 [[], rowC10] 6 (strOf ("1710"))).2 (by decide!)⟩⟩

-- =========================
-- Claim C9 : idempotence of the Balance Aggregator
-- =========================

theorem dropWhile_length_le {α : Type} (p : α → Bool) (l : List α) :
    (l.dropWhile p).length ≤ l.length := by
  induction l with
  | nil => simp
  | cons a rest ih =>
    rw [List.dropWhile_cons]
    split
    · exact Nat.le_trans ih (Nat.le_succ _)
    · simp

theorem pyStrip_length_le (s : Str) : (pyStrip s).length ≤ s.length := by
  rw [pyStrip, pyStripRight, pyStripLeft]
  rw [List.length_reverse]
  calc (List.dropWhile Char.isWhitespace (List.dropWhile Char.isWhitespace s).reverse).length
      ≤ (List.dropWhile Char.isWhitespace s).reverse.length := dropWhile_length_le _ _
    _ = (List.dropWhile Char.isWhitespace s).length := List.length_reverse _
    _ ≤ s.length := dropWhile_length_le _ _

theorem drop_len_add {α : Type} (x s : List α) (n : Nat) :
    (x ++ s).drop (x.length + n) = s.drop n := by
  induction x with
  | nil => simp
  | cons a t ih => simp [Nat.succ_add, ih]

theorem take_len_add {α : Type} (x s : List α) (n : Nat) :
    (x ++ s).take (x.length + n) = x ++ s.take n := by
  induction x with
  | nil => simp
  | cons a t ih => simp [Nat.succ_add, ih]

theorem hasCode4_length {n : Str} (h : hasCode4 n = true) : 4 ≤ n.length := by
  by_contra hlt
  rw [hasCode4, split_prefix_suffix4, if_pos (by omega)] at h
  have h2 : (alookup target_suffixes ([] : Str)).isSome = true := h
  exact absurd h2 (by decide)

/-- Stripping from the right does not touch a string ending in сальд. -/
theorem pyStripRight_sald (y : Str) : pyStripRight (y ++ saldStr) = y ++ saldStr := by
  rw [pyStripRight, List.reverse_append]
  have hs : saldStr.reverse = 'д' :: ('ь' :: ('л' :: ('а' :: ('с' :: [])))) := rfl
  rw [hs, List.cons_append, List.dropWhile_cons]
  rw [if_neg (by decide)]
  rw [← List.cons_append, ← hs, List.reverse_append, List.reverse_reverse, List.reverse_reverse]

/-- The classifier never recognizes a saldo output sheet name: for a prefix
of at most 27 characters the safe name ends in сальд (or its 4-character
truncation саль), neither of which is one of the four codes. -/
theorem saldoSheetName_notCode (p : Str) (hp : p.length ≤ 27) :
    hasCode4 (saldoSheetName p) = false := by
  have h0 : (if p = [] then saldStr else p ++ saldStr) = p ++ saldStr := by
    split
    · rename_i hp0
      rw [hp0]
      rfl
    · rfl
  rw [saldoSheetName, h0, safe_sheet_name]
  have hfs : saldStr.filter (fun c => !(bannedChars.contains c)) = saldStr := by decide
  rw [List.filter_append, hfs]
  set x := p.filter (fun c => !(bannedChars.contains c)) with hx
  have hxlen : x.length ≤ 27 :=
    Nat.le_trans (List.length_filter_le _ _) hp
  have hleft : ∃ y : Str, y.length ≤ x.length ∧
      pyStripLeft (x ++ saldStr) = y ++ saldStr := by
    rw [pyStripLeft, List.dropWhile_append]
    split
    · exact ⟨[], Nat.zero_le _, rfl⟩
    · exact ⟨x.dropWhile Char.isWhitespace, dropWhile_length_le _ _, rfl⟩
  rcases hleft with ⟨y, hylen, hyeq⟩
  rw [pyStrip, hyeq, pyStripRight_sald]
  have hsl : saldStr.length = 5 := rfl
  have hylen5 : (y ++ saldStr).length = y.length + 5 := by
    rw [List.length_append, hsl]
  have hne : ¬(y ++ saldStr) = [] := by
    intro hcon
    have := congrArg List.length hcon
    rw [hylen5] at this
    simp at this
  rw [if_neg hne]
  have hyb : y.length ≤ 27 := Nat.le_trans hylen hxlen
  by_cases hk : y.length ≤ 26
  · have htake : (y ++ saldStr).take 31 = y ++ saldStr :=
      List.take_of_length_le (by omega)
    rw [htake, hasCode4, split_prefix_suffix4, if_neg (by omega)]
    have harg : (y ++ saldStr).length - 4 = y.length + 1 := by omega
    rw [harg, drop_len_add y saldStr 1]
    show (alookup target_suffixes (pyLower (List.drop 1 saldStr))).isSome = false
    decide
  · have hk27 : y.length = 27 := by omega
    have htake : (y ++ saldStr).take 31 = y ++ saldStr.take 4 := by
      have : (31 : Nat) = y.length + 4 := by omega
      rw [this, take_len_add]
    rw [htake]
    have hlen31 : (y ++ saldStr.take 4).length = 31 := by
      rw [List.length_append, hk27]
      rfl
    rw [hasCode4, split_prefix_suffix4, if_neg (by omega)]
    have harg : (y ++ saldStr.take 4).length - 4 = y.length + 0 := by omega
    rw [harg, drop_len_add y (saldStr.take 4) 0]
    show (alookup target_suffixes (pyLower (List.drop 0 (saldStr.take 4)))).isSome = false
    decide

theorem alookup_filter_ne {α : Type} (l : List (Str × α)) (n k : Str) (h : n ≠ k) :
    alookup (l.filter (fun e => !(e.1 == n))) k = alookup l k := by
  induction l with
  | nil => rfl
  | cons e rest ih =>
    rcases e with ⟨k0, v⟩
    by_cases h0 : k0 = n
    · subst h0
      rw [List.filter_cons, if_neg (by simp)]
      rw [ih, alookup, if_neg h]
    · rw [List.filter_cons, if_pos (by simp [h0])]
      rw [alookup, alookup]
      split
      · rfl
      · exact ih

theorem alookup_writeSheet_ne (w : Workbook) (nm n : Str) (s : Sheet) (h : n ≠ nm) :
    alookup (writeSheet w n s) nm = alookup w nm := by
  rw [writeSheet, alookup_append, alookup_filter_ne w n nm h]
  cases h2 : alookup w nm with
  | none => simp [alookup, h]
  | some v => rfl

theorem alookup_applyOutputs (w : Workbook) (outs : List (Str × Sheet)) (nm : Str)
    (h : ∀ o ∈ outs, o.1 ≠ nm) :
    alookup (applyOutputs w outs) nm = alookup w nm := by
  induction outs generalizing w with
  | nil => rfl
  | cons o rest ih =>
    rw [applyOutputs, List.foldl_cons]
    rw [show rest.foldl (fun w o => writeSheet w o.1 o.2) (writeSheet w o.1 o.2)
        = applyOutputs (writeSheet w o.1 o.2) rest from rfl]
    rw [ih _ (fun o' ho' => h o' (List.mem_cons_of_mem o ho'))]
    exact alookup_writeSheet_ne w nm o.1 o.2 (h o (List.mem_cons_self o rest))

theorem classifyStep4_notCode (acc : Grouping) (n : Str) (h : hasCode4 n = false) :
    classifyStep4 acc n = acc := by
  simp [classifyStep4, h]

theorem foldl_classify4_filter (l : List Str) (n : Str) (h : hasCode4 n = false) :
    ∀ acc : Grouping,
      (l.filter (fun m => !(m == n))).foldl classifyStep4 acc = l.foldl classifyStep4 acc := by
  induction l with
  | nil => intro acc; rfl
  | cons m rest ih =>
    intro acc
    by_cases hm : m = n
    · subst hm
      rw [List.filter_cons, if_neg (by simp)]
      rw [List.foldl_cons, classifyStep4_notCode acc m h]
      exact ih acc
    · rw [List.filter_cons, if_pos (by simp [hm])]
      rw [List.foldl_cons, List.foldl_cons]
      exact ih (classifyStep4 acc m)

theorem map_fst_filter_ne {α : Type} (w : List (Str × α)) (n : Str) :
    (w.filter (fun e => !(e.1 == n))).map Prod.fst
      = (w.map Prod.fst).filter (fun m => !(m == n)) := by
  induction w with
  | nil => rfl
  | cons e rest ih =>
    rw [List.filter_cons, List.map_cons, List.filter_cons]
    split
    · rw [List.map_cons, ih]
    · exact ih

theorem classify4_names_writeSheet (w : Workbook) (n : Str) (s : Sheet)
    (h : hasCode4 n = false) :
    classify4 (sheetNames (writeSheet w n s)) = classify4 (sheetNames w) := by
  have hnames : sheetNames (writeSheet w n s)
      = (sheetNames w).filter (fun m => !(m == n)) ++ [n] := by
    rw [writeSheet, sheetNames, List.map_append, map_fst_filter_ne]
    rfl
  rw [classify4, hnames, List.foldl_append]
  rw [show ([n].foldl classifyStep4 (((sheetNames w).filter
      (fun m => !(m == n))).foldl classifyStep4 []))
    = classifyStep4 (((sheetNames w).filter (fun m => !(m == n))).foldl classifyStep4 []) n
    from rfl]
  rw [classifyStep4_notCode _ _ h]
  exact foldl_classify4_filter (sheetNames w) n h []

theorem classify4_applyOutputs (w : Workbook) (outs : List (Str × Sheet))
    (h : ∀ o ∈ outs, hasCode4 o.1 = false) :
    classify4 (sheetNames (applyOutputs w outs)) = classify4 (sheetNames w) := by
  induction outs generalizing w with
  | nil => rfl
  | cons o rest ih =>
    rw [applyOutputs, List.foldl_cons]
    rw [show rest.foldl (fun w o => writeSheet w o.1 o.2) (writeSheet w o.1 o.2)
        = applyOutputs (writeSheet w o.1 o.2) rest from rfl]
    rw [ih _ (fun o' ho' => h o' (List.mem_cons_of_mem o ho'))]
    exact classify4_names_writeSheet w o.1 o.2 (h o (List.mem_cons_self o rest))

/-- Every map entry produced by addSheet is an old entry or the new pair. -/
theorem addSheet_entries {p suf nm q : Str} {m : List (Str × Str)} :
    ∀ {acc : Grouping}, (q, m) ∈ addSheet acc p suf nm →
      ∀ e ∈ m, (∃ m0, (q, m0) ∈ acc ∧ e ∈ m0) ∨ e = (suf, nm) := by
  intro acc
  induction acc with
  | nil =>
    intro h e he
    rw [addSheet] at h
    rcases List.mem_singleton.mp h with h2
    cases h2
    rcases List.mem_singleton.mp he with h3
    exact Or.inr h3
  | cons a rest ih =>
    rcases a with ⟨q0, m0⟩
    intro h e he
    rw [addSheet] at h
    split at h
    · rename_i hq0
      split at h
      · rcases List.mem_cons.mp h with h2 | h2
        · cases h2
          exact Or.inl ⟨m, List.mem_cons_self _ _, he⟩
        · exact Or.inl ⟨m, List.mem_cons_of_mem _ h2, he⟩
      · rcases List.mem_cons.mp h with h2 | h2
        · cases h2
          rcases List.mem_append.mp he with h3 | h3
          · exact Or.inl ⟨m0, List.mem_cons_self _ _, h3⟩
          · exact Or.inr (List.mem_singleton.mp h3)
        · exact Or.inl ⟨m, List.mem_cons_of_mem _ h2, he⟩
    · rcases List.mem_cons.mp h with h2 | h2
      · cases h2
        exact Or.inl ⟨m, List.mem_cons_self _ _, he⟩
      · rcases ih h2 e he with ⟨m1, hm1, he1⟩ | h3
        · exact Or.inl ⟨m1, List.mem_cons_of_mem _ hm1, he1⟩
        · exact Or.inr h3

/-- Every prefix produced by addSheet is an old prefix or the new one. -/
theorem addSheet_prefixes {p suf nm q : Str} {m : List (Str × Str)} :
    ∀ {acc : Grouping}, (q, m) ∈ addSheet acc p suf nm →
      (∃ m0, (q, m0) ∈ acc) ∨ q = p := by
  intro acc
  induction acc with
  | nil =>
    intro h
    rcases List.mem_singleton.mp h with h2
    cases h2
    exact Or.inr rfl
  | cons a rest ih =>
    rcases a with ⟨q0, m0⟩
    intro h
    rw [addSheet] at h
    split at h
    · rename_i hq0
      split at h
      · rcases List.mem_cons.mp h with h2 | h2
        · cases h2
          exact Or.inl ⟨m, List.mem_cons_self _ _⟩
        · exact Or.inl ⟨m, List.mem_cons_of_mem _ h2⟩
      · rcases List.mem_cons.mp h with h2 | h2
        · cases h2
          exact Or.inr hq0
        · exact Or.inl ⟨m, List.mem_cons_of_mem _ h2⟩
    · rcases List.mem_cons.mp h with h2 | h2
      · cases h2
        exact Or.inl ⟨m, List.mem_cons_self _ _⟩
      · rcases ih h2 with ⟨m1, hm1⟩ | h3
        · exact Or.inl ⟨m1, List.mem_cons_of_mem _ hm1⟩
        · exact Or.inr h3

/-- A well-formed classification group: prefix at most 27 characters and
every registered sheet name recognized. -/
def GoodGroup (pm : Str × List (Str × Str)) : Prop :=
  pm.1.length ≤ 27 ∧ ∀ e ∈ pm.2, hasCode4 e.2 = true

theorem classify4_fold_good : ∀ (l : List Str) (acc : Grouping),
    (∀ n ∈ l, n.length ≤ 31) →
    (∀ pm ∈ acc, GoodGroup pm) →
    ∀ pm ∈ l.foldl classifyStep4 acc, GoodGroup pm := by
  intro l
  induction l with
  | nil => intro acc _ hacc; exact hacc
  | cons n rest ih =>
    intro acc hl hacc
    rw [List.foldl_cons]
    apply ih _ (fun m hm => hl m (List.mem_cons_of_mem n hm))
    intro pm hpm
    by_cases hc : hasCode4 n = true
    · rw [classifyStep4, if_pos hc] at hpm
      rcases pm with ⟨q, m⟩
      have h4 : 4 ≤ n.length := hasCode4_length hc
      have hn31 : n.length ≤ 31 := hl n (List.mem_cons_self n rest)
      constructor
      · rcases addSheet_prefixes hpm with ⟨m0, hm0⟩ | hqp
        · exact (hacc (q, m0) hm0).1
        · rw [hqp]
          show ( normalize_prefix (split_prefix_suffix4 n).1).length ≤ 27
          rw [split_prefix_suffix4, if_neg (by omega)]
          calc (pyStrip (n.take (n.length - 4))).length
              ≤ (n.take (n.length - 4)).length := pyStrip_length_le _
            _ ≤ n.length - 4 := by rw [List.length_take]; omega
            _ ≤ 27 := by omega
      · intro e he
        rcases addSheet_entries hpm e he with ⟨m0, hm0, he0⟩ | hnew
        · exact (hacc (q, m0) hm0).2 e he0
        · rw [hnew]
          exact hc
    · rw [classifyStep4, if_neg hc] at hpm
      exact hacc pm hpm

theorem saldoOutputs_names {wb : Workbook} (hlen : ∀ n ∈ sheetNames wb, n.length ≤ 31) :
    ∀ o ∈ saldoOutputs wb, hasCode4 o.1 = false := by
  intro o ho
  rw [saldoOutputs, List.mem_filterMap] at ho
  rcases ho with ⟨pm, hpm, ho⟩
  have hg := classify4_fold_good (sheetNames wb) [] hlen (by simp) pm hpm
  split at ho
  · cases ho
  · cases ho
    exact saldoSheetName_notCode pm.1 hg.1

theorem codeSeries_congr {wb1 wb2 : Workbook} {m : List (Str × Str)} (suf : Str) (c : Nat)
    (h : ∀ e ∈ m, alookup wb2 e.2 = alookup wb1 e.2) :
    codeSeries wb2 m suf c = codeSeries wb1 m suf c := by
  rw [codeSeries, codeSeries]
  cases h2 : alookup m suf with
  | none => rfl
  | some name =>
    have hm := alookup_mem h2
    have he := h (suf, name) hm
    simp only [getSheet]
    rw [he]

theorem saldoData_congr {wb1 wb2 : Workbook} {m : List (Str × Str)}
    (h : ∀ e ∈ m, alookup wb2 e.2 = alookup wb1 e.2) :
    saldoData wb2 m = saldoData wb1 m := by
  have e1 : series1210 wb2 m = series1210 wb1 m := by
    rw [series1210, series1210]; exact codeSeries_congr _ _ h
  have e2 : series1710 wb2 m = series1710 wb1 m := by
    rw [series1710, series1710]; exact codeSeries_congr _ _ h
  have e3 : series3310 wb2 m = series3310 wb1 m := by
    rw [series3310, series3310]; exact codeSeries_congr _ _ h
  have e4 : series3510 wb2 m = series3510 wb1 m := by
    rw [series3510, series3510]; exact codeSeries_congr _ _ h
  rw [saldoData, saldoData, custRows, custRows, suppRows, suppRows, totalRows, totalRows,
    custSet, custSet, suppSet, suppSet, allSet, allSet, custSet, custSet, suppSet, suppSet,
    e1, e2, e3, e4]

theorem saldoOutputs_eq {wb1 wb2 : Workbook}
    (hcls : classify4 (sheetNames wb2) = classify4 (sheetNames wb1))
    (hdata : ∀ pm ∈ classify4 (sheetNames wb1), saldoData wb2 pm.2 = saldoData wb1 pm.2) :
    saldoOutputs wb2 = saldoOutputs wb1 := by
  rw [saldoOutputs, saldoOutputs, hcls]
  apply List.filterMap_congr
  intro pm hpm
  rw [hdata pm hpm]

/-- C9: on a workbook whose sheet names respect the 31-character Excel
limit, a successful Balance Aggregator run is idempotent: a second run on
the output succeeds, emits exactly the same output sheets (same names, same
content) for every prefix, and replaces each previously emitted sheet with
identical content — because the classifier never recognizes the emitted
saldo sheets and the source sheets are untouched. -/
theorem C9_theorem (wb wb' : Workbook) (hlen : ∀ n ∈ sheetNames wb, n.length ≤ 31)
    (h : run_code_1 wb = Except.ok wb') :
    run_code_1 wb' = Except.ok (applyOutputs wb' (saldoOutputs wb)) ∧
    saldoOutputs wb' = saldoOutputs wb := by
  rw [run_code_1] at h
  split at h
  · cases h
  · rename_i hne
    have hwb' : wb' = applyOutputs wb (saldoOutputs wb) := by
      cases h
      rfl
    have hnames : ∀ o ∈ saldoOutputs wb, hasCode4 o.1 = false := saldoOutputs_names hlen
    have hcls : classify4 (sheetNames wb') = classify4 (sheetNames wb) := by
      rw [hwb']
      exact classify4_applyOutputs wb _ hnames
    have hdata : ∀ pm ∈ classify4 (sheetNames wb), saldoData wb' pm.2 = saldoData wb pm.2 := by
      intro pm hpm
      apply saldoData_congr
      intro e he
      have hcode : hasCode4 e.2 = true :=
        (classify4_fold_good (sheetNames wb) [] hlen (by simp) pm hpm).2 e he
      rw [hwb']
      apply alookup_applyOutputs
      intro o ho heq
      have hf := hnames o ho
      rw [heq, hcode] at hf
      cases hf
    have hout : saldoOutputs wb' = saldoOutputs wb := saldoOutputs_eq hcls hdata
    refine ⟨?_, hout⟩
    rw [run_code_1, hcls, if_neg hne, hout]

def wbC9 : Workbook :=
  [(strOf ("z1210"),
    [List.replicate 7 Cell.empty,
     [Cell.str (strOf ("ACME")), Cell.empty, Cell.empty, Cell.empty, Cell.empty, Cell.empty,
      Cell.num 7000]])]

/-- C9, witness at the concrete workbook wbC9. -/
theorem C9_witness :
    (∀ n ∈ sheetNames wbC9, n.length ≤ 31) ∧
    run_code_1 (applyOutputs wbC9 (saldoOutputs wbC9)) =
      Except.ok (applyOutputs (applyOutputs wbC9 (saldoOutputs wbC9)) (saldoOutputs wbC9)) ∧
    saldoOutputs (applyOutputs wbC9 (saldoOutputs wbC9)) = saldoOutputs wbC9 := by
  have h := C9_theorem wbC9 (applyOutputs wbC9 (saldoOutputs wbC9)) (by decide!) rfl
  exact ⟨by decide!, h.1, h.2⟩

end ExcelApp
